import Mathlib

/-!
Verification development for the synthetic-data pipeline of
`code/synthetic_data_and_moea_plots/functions_synthetic_data.py`:
synthetic SWE (gamma marginals coupled through a Gaussian copula, function
`synthetic_swe`), synthetic hydropower generation (per-month regressions with
optional ceilings and a whitened AR(1,3) residual process, function
`synthetic_generation`), and synthetic power prices (log-deseasonalized
seasonal ARMA simulation, function `synthetic_power`).

Modelling conventions:
* Python floats are modelled as exact rationals (`ℚ`) in the generation
  pipeline, and as real numbers (`ℝ`) in the price pipeline, which applies the
  transcendental functions `log`, `exp` and `sqrt`.
* A pandas `NaN` cell is modelled as `none : Option ℚ`; masked assignments
  that leave a cell untouched leave it `none`, and comparisons against `NaN`
  are `False`, exactly as in numpy.
* Scalars produced by external library fits (`scipy.optimize.curve_fit`,
  `statsmodels` OLS and SARIMAX) and the irrational group standard deviations
  are taken as explicit arguments, universally quantified in every theorem;
  the source stores each of them once and thereafter uses it only as an
  opaque number, which is exactly how the arguments are used here.
* numpy's seeded global random generator is modelled as a deterministic
  pseudo-random stream derived from the seed, which is the only property of
  it the pipeline relies on.
-/

/- Batteries marks the rational-number field operations `@[irreducible]`.
The concrete counterexamples and witnesses below evaluate the pipeline on
small inputs with `decide`, which needs those operations to unfold. -/
attribute [local semireducible] Rat.add Rat.mul Rat.sub Rat.inv

set_option maxRecDepth 40000

/-- Number of synthetic years drawn by the simulators (`N_SAMPLES = 1000000`
in the source).  The table builders below take the sample count as an explicit
argument; this constant instantiates them at the source's value. -/
def N_SAMPLES : ℕ := 1000000

/-- Numerical tolerance for the threshold-side classification
(`eps = 1e-13` in the source). -/
def eps : ℚ := 1 / 10 ^ 13

/-- Arithmetic mean of a list of rationals (`pandas.Series.mean`).  The empty
list yields `0` where pandas yields `NaN`; every use below is either guarded
or insensitive to that junk value. -/
def listMean (xs : List ℚ) : ℚ := xs.sum / xs.length

/-- Sample variance with one delta degree of freedom
(`pandas.Series.var`, the square of `.std()`). -/
def listVar (xs : List ℚ) : ℚ :=
  (xs.map (fun x => (x - listMean xs) ^ 2)).sum / (xs.length - 1 : ℚ)

/-- Minimum of a column (`pandas.Series.min`): `none` on the empty column,
where pandas yields `NaN`. -/
def colMin : List ℚ → Option ℚ
  | [] => none
  | x :: xs => some (xs.foldl min x)

/-- Maximum of a column (`pandas.Series.max`): `none` on the empty column,
where pandas yields `NaN`. -/
def colMax : List ℚ → Option ℚ
  | [] => none
  | x :: xs => some (xs.foldl max x)

/-! ### Model of the seeded numpy global random generator

`np.random.seed(k)` resets the global generator from the integer seed; every
subsequent `norm.rvs` / `multivariate_normal.rvs` call reads the stream that
the seed determines.  Only determinism of that stream matters to the claims,
so the Mersenne-Twister-plus-transform composite is modelled as a concrete
deterministic map from seed and draw index to a rational draw. -/

/-- One step of the modelled generator state transition. -/
def rngNext (s : ℕ) : ℕ := (6364136223846793005 * s + 1442695040888963407) % 2 ^ 64

/-- Output extracted from a generator state. -/
def rngVal (s : ℕ) : ℚ := ((s % 2 ^ 53 : ℕ) : ℚ) / 2 ^ 53

/-- Modelled `np.random.seed`: the global state determined by a seed. -/
def npRandomSeed (k : ℕ) : ℕ := k

/-- The stream of modelled draws produced after seeding with `seed`. -/
def stageStream (seed : ℕ) : ℕ → ℚ :=
  fun i => rngVal (Nat.iterate rngNext (i + 1) (npRandomSeed seed))

/-- Seed set at entry to `synthetic_swe` (`np.random.seed(1)`). -/
def sweSeed : ℕ := 1

/-- Seed set at entry to `synthetic_generation` (`np.random.seed(2)`). -/
def genSeed : ℕ := 2

/-- Seed set at entry to `synthetic_power` (`np.random.seed(3)`). -/
def powSeed : ℕ := 3

/-! ### `synthetic_swe`: gamma marginals coupled by a Gaussian copula -/

/-- Body of the `redo` branch of `synthetic_swe`.  The numerical primitives
supplied by scipy (`st.kendalltau`, `math.sin` together with the constant
`math.pi`, `multivariate_normal.rvs`, `norm.cdf`, `gamma.ppf` with location
fixed at `0`, and `gamma.fit` with `floc=0` returning shape and scale) are
explicit functional arguments; the definition composes them exactly as the
source does.  `mvn_rvs corr n` stands for `multivariate_normal.rvs` drawing
`n` bivariate standard normal vectors with covariance
`[[1, corr], [corr, 1]]`. -/
def synthetic_swe_core (kendalltau : List ℚ → List ℚ → ℚ) (sin' : ℚ → ℚ) (pi' : ℚ)
    (mvn_rvs : ℚ → ℕ → List (ℚ × ℚ)) (norm_cdf : ℚ → ℚ)
    (gamma_ppf : ℚ → ℚ → ℚ → ℚ) (gamma_fit : List ℚ → ℚ × ℚ)
    (danFeb danApr : List ℚ) : List (ℚ × ℚ) :=
  let shpSclFeb := gamma_fit danFeb
  let shpSclApr := gamma_fit danApr
  let kendallsTau := kendalltau danFeb danApr
  let corr_norm_equiv := sin' (kendallsTau * pi' / 2)
  let samp_fitted := mvn_rvs corr_norm_equiv N_SAMPLES
  samp_fitted.map fun p =>
    (gamma_ppf shpSclFeb.1 shpSclFeb.2 (norm_cdf p.1),
     gamma_ppf shpSclApr.1 shpSclApr.2 (norm_cdf p.2))

/-- `synthetic_swe` with the persistence boundary made explicit: with
`redo = true` the copula sampler runs; otherwise the pickled table `cached`
is returned unchanged. -/
def synthetic_swe (kendalltau : List ℚ → List ℚ → ℚ) (sin' : ℚ → ℚ) (pi' : ℚ)
    (mvn_rvs : ℚ → ℕ → List (ℚ × ℚ)) (norm_cdf : ℚ → ℚ)
    (gamma_ppf : ℚ → ℚ → ℚ → ℚ) (gamma_fit : List ℚ → ℚ × ℚ)
    (danFeb danApr : List ℚ) (redo : Bool) (cached : List (ℚ × ℚ)) : List (ℚ × ℚ) :=
  if redo then
    synthetic_swe_core kendalltau sin' pi' mvn_rvs norm_cdf gamma_ppf gamma_fit danFeb danApr
  else cached

/-- Modelled from the spec: the Copula Sampler algorithm of section 4.2,
steps 1-5 in the spec's own words — compute Kendall's tau of the two
historical columns, convert it to the Gaussian-equivalent correlation
`sin (tau * pi / 2)`, draw `N_SAMPLES` bivariate standard normal vectors with
that correlation, push each component through the standard normal CDF, and
invert through the fitted gamma quantile function of the respective marginal
(location fixed at `0`).  Stated over the same abstract numerical primitives
as `synthetic_swe_core`, to be compared with it. -/
def copulaSampler_spec (kendalltau : List ℚ → List ℚ → ℚ) (sin' : ℚ → ℚ) (pi' : ℚ)
    (mvn_rvs : ℚ → ℕ → List (ℚ × ℚ)) (norm_cdf : ℚ → ℚ)
    (gamma_ppf : ℚ → ℚ → ℚ → ℚ) (gamma_fit : List ℚ → ℚ × ℚ)
    (danFeb danApr : List ℚ) : List (ℚ × ℚ) :=
  let tau := kendalltau danFeb danApr
  let rho := sin' (tau * pi' / 2)
  let draws := mvn_rvs rho N_SAMPLES
  let uniforms := draws.map fun p => (norm_cdf p.1, norm_cdf p.2)
  uniforms.map fun u =>
    (gamma_ppf (gamma_fit danFeb).1 (gamma_fit danFeb).2 u.1,
     gamma_ppf (gamma_fit danApr).1 (gamma_fit danApr).2 u.2)

/-! ### Marginal Fitter (section 4.1) -/

/-- Modelled from the spec: the failure cases of the Marginal Fitter.  The
actual gamma fit is performed by `scipy.stats.gamma.fit`, library code that is
not part of this repository; only its contract is specified (section 4.1):
MLE gamma shape/scale with location fixed at zero, failing with a `FitError`
on a degenerate (zero-variance) sample or on a sample containing negative
values. -/
inductive FitError where
  | degenerateSample : FitError
  | negativeValues : FitError
deriving DecidableEq, Repr

/-- Modelled from the spec: `gamma.fit` with `floc=0` as specified in
section 4.1.  Fails with a `FitError` on degenerate or negative input; on
valid input it returns positive shape and scale estimates (a
method-of-moments stand-in for the scipy MLE numbers, which are irrelevant to
the error-handling claim verified about this definition). -/
def gamma_fit_model (xs : List ℚ) : Except FitError (ℚ × ℚ) :=
  if xs.any (fun x => x < 0) then .error .negativeValues
  else if listVar xs = 0 then .error .degenerateSample
  else .ok (listMean xs ^ 2 / listVar xs, listVar xs / listMean xs)

/-! ### `synthetic_generation`: data model -/

/-- One row of the historical generation record: monthly total generation,
water-month index 1-12, and the February / April SWE predictors of the row's
water year (columns `tot`, `wmnth`, `sweFeb`, `sweApr`). -/
structure GenRow where
  tot : ℚ
  wmnth : ℕ
  sweFeb : ℚ
  sweApr : ℚ
deriving DecidableEq, Repr, Inhabited

/-- The historical generation table.  The four derived columns that
`synthetic_generation` attaches to the very DataFrame it was handed
(`genPredS`, `genResidS`, `genResidSDe`, `genResidSDeAR`) are modelled as
optional columns, `none` before the function runs; `NaN` cells inside an
attached column are the inner `none`. -/
structure GenHist where
  rows : List GenRow
  genPredS : Option (List ℚ) := none
  genResidS : Option (List ℚ) := none
  genResidSDe : Option (List (Option ℚ)) := none
  genResidSDeAR : Option (List (Option ℚ)) := none
deriving DecidableEq, Repr

/-- Per-month regression parameters, one row of `lmGenWmnthParams`
(columns `int`, `sweFebSlp`, `sweAprSlp`, `thres`; the stored `residStd`
column is never read by the simulation steps verified here and is omitted). -/
structure MonthParams where
  int : ℚ
  sweFebSlp : ℚ
  sweAprSlp : ℚ
  thres : ℚ
deriving DecidableEq, Repr

/-- The `tot` values of the historical rows of water month `m`
(`gen.tot.loc[gen.wmnth == i]`). -/
def monthTot (hrows : List GenRow) (m : ℕ) : List ℚ :=
  (hrows.filter fun r => r.wmnth == m).map GenRow.tot

/-- The `lmGenWmnthParams` table.  Months 6-9 take the three
`scipy.optimize.curve_fit` parameters of the piecewise `linear_w_max` fit on
April SWE (`curveFitApr m = (intercept, slope, upperbound)`); months 2-4 the
OLS intercept and slope on February SWE with sentinel threshold `1000`;
months 5, 10, 11 the OLS intercept and slope on April SWE with sentinel
`1000`; months 1 and 12 the historical month mean as intercept, zero slopes
and sentinel `1000`. -/
def lmGenWmnthParams (hrows : List GenRow)
    (curveFitApr : ℕ → ℚ × ℚ × ℚ) (olsFeb olsApr : ℕ → ℚ × ℚ) : ℕ → MonthParams :=
  fun m =>
    if m = 6 ∨ m = 7 ∨ m = 8 ∨ m = 9 then
      { int := (curveFitApr m).1, sweFebSlp := 0, sweAprSlp := (curveFitApr m).2.1,
        thres := (curveFitApr m).2.2 }
    else if m = 2 ∨ m = 3 ∨ m = 4 then
      { int := (olsFeb m).1, sweFebSlp := (olsFeb m).2, sweAprSlp := 0, thres := 1000 }
    else if m = 5 ∨ m = 10 ∨ m = 11 then
      { int := (olsApr m).1, sweFebSlp := 0, sweAprSlp := (olsApr m).2, thres := 1000 }
    else
      { int := listMean (monthTot hrows m), sweFebSlp := 0, sweAprSlp := 0, thres := 1000 }

/-- Historical in-sample prediction `genPredS` for one row: the ceiling months
6-9 evaluate `linear_w_max` (`min (intercept + slope * sweApr) upperbound`),
the plain linear months evaluate the uncapped line on their predictor, and
months 1 and 12 return the stored month mean. -/
def genPredS1 (P : ℕ → MonthParams) (r : GenRow) : ℚ :=
  if r.wmnth = 6 ∨ r.wmnth = 7 ∨ r.wmnth = 8 ∨ r.wmnth = 9 then
    min ((P r.wmnth).int + (P r.wmnth).sweAprSlp * r.sweApr) (P r.wmnth).thres
  else if r.wmnth = 2 ∨ r.wmnth = 3 ∨ r.wmnth = 4 then
    (P r.wmnth).int + (P r.wmnth).sweFebSlp * r.sweFeb
  else if r.wmnth = 5 ∨ r.wmnth = 10 ∨ r.wmnth = 11 then
    (P r.wmnth).int + (P r.wmnth).sweAprSlp * r.sweApr
  else
    (P r.wmnth).int

/-- Whitening group of a residual: the whole month when the month has no
ceiling, otherwise the side of the threshold its predicted value falls on. -/
inductive WGroup where
  | whole : WGroup
  | above : WGroup
  | below : WGroup
deriving DecidableEq, Repr

/-- Group classification used by both the historical deseasonalization and
the synthetic re-seasonalization masks: a month whose stored threshold
exceeds `999` forms a single group; otherwise a row is `above` when its
predicted value is strictly greater than `thres - eps`, `below` when strictly
less, and unclassified (`none`, the cell stays `NaN`) when exactly equal. -/
def classifyGroup (p : MonthParams) (pred : ℚ) : Option WGroup :=
  if 999 < p.thres then some WGroup.whole
  else if p.thres - eps < pred then some WGroup.above
  else if pred < p.thres - eps then some WGroup.below
  else none

/-- Historical residuals (`genResidS = tot - genPredS`) of water month `m`
that fall in whitening group `g`. -/
def groupResidS (P : ℕ → MonthParams) (hrows : List GenRow) (m : ℕ) (g : WGroup) : List ℚ :=
  ((hrows.filter fun r =>
      r.wmnth == m && classifyGroup (P m) (genPredS1 P r) == some g).map
    fun r => r.tot - genPredS1 P r)

/-- Stored mean of a whitening group (`gen.genResidS.loc[...].mean()`). -/
def muOf (P : ℕ → MonthParams) (hrows : List GenRow) (m : ℕ) (g : WGroup) : ℚ :=
  listMean (groupResidS P hrows m g)

/-- Forward whitening of one historical residual (the deseasonalization loop
building `genResidSDe`): subtract the stored group mean and divide by the
stored group standard deviation.  `stdOf m g` is the stored scalar
`gen.genResidS.loc[...].std()`, irrational in general and therefore carried
as an argument.  A row at exactly `thres - eps` matches neither mask and its
cell stays `NaN`. -/
def genResidSDeRow (P : ℕ → MonthParams) (stdOf : ℕ → WGroup → ℚ)
    (hrows : List GenRow) (r : GenRow) : Option ℚ :=
  (classifyGroup (P r.wmnth) (genPredS1 P r)).map fun g =>
    ((r.tot - genPredS1 P r) - muOf P hrows r.wmnth g) / stdOf r.wmnth g

/-- Inverse whitening of one synthetic whitened residual (the block building
`genSynth.residS`): multiply by the stored historical group standard
deviation and add the stored historical group mean, the group being chosen
from the synthetic row's month and predicted value.  A row at exactly
`thres - eps` matches neither mask and its cell stays `NaN`. -/
def invWhiten (P : ℕ → MonthParams) (stdOf : ℕ → WGroup → ℚ)
    (hrows : List GenRow) (m : ℕ) (pred z : ℚ) : Option ℚ :=
  (classifyGroup (P m) pred).map fun g =>
    z * stdOf m g + muOf P hrows m g

/-- The AR(1,3) whitened-residual recursion of the Monte Carlo simulator
(`dum[i, 1] = residAR1_wt * dum[i-1, 1] + residAR3_wt * dum[i-3, 1] + dum[i, 0]`):
the first three values are the three seeded normal draws, and every later
value combines the lag-1 and lag-3 values with the step's innovation. -/
def arSeq (ar1 ar3 i0 i1 i2 : ℚ) (innov : ℕ → ℚ) : ℕ → ℚ
  | 0 => i0
  | 1 => i1
  | 2 => i2
  | n + 3 => ar1 * arSeq ar1 ar3 i0 i1 i2 innov (n + 2) +
      ar3 * arSeq ar1 ar3 i0 i1 i2 innov n + innov (n + 3)

/-- The simulated whitened residual column: `(nSamples + 1) * 12` steps of the
AR(1,3) recursion with the first 12 (one burn-in year) discarded
(`dum = dum[12:, :]`). -/
def residSDeCol (ar1 ar3 i0 i1 i2 : ℚ) (innov : ℕ → ℚ) (nSamples : ℕ) : List ℚ :=
  (((List.range ((nSamples + 1) * 12)).map (arSeq ar1 ar3 i0 i1 i2 innov)).drop 12)

/-- Synthetic prediction for month `m` and SWE pair (the loop building
`genSynth.genPred`): intercept plus both slope terms, capped at the stored
threshold by `np.minimum`. -/
def genPredSynth (P : ℕ → MonthParams) (m : ℕ) (sF sA : ℚ) : ℚ :=
  min ((P m).int + (P m).sweFebSlp * sF + (P m).sweAprSlp * sA) (P m).thres

/-- The two masked clipping assignments applied to the final `gen` column:
values below the historical minimum are raised to it, then values above the
historical maximum are lowered to it.  A `NaN` cell compares false against
both bounds and is left untouched, as is the whole column when the historical
record is empty (its min and max are then `NaN`). -/
def clipGen (tot : List ℚ) (o : Option ℚ) : Option ℚ :=
  match colMin tot, colMax tot with
  | some lo, some hi => o.map fun x =>
      let y := if x < lo then lo else x
      if hi < y then hi else y
  | _, _ => o

/-- One row of the synthetic generation table `genSynth`. -/
structure SynthRow where
  wyr : ℕ
  wmnth : ℕ
  sweFeb : ℚ
  sweApr : ℚ
  residSDe : ℚ
  residS : Option ℚ
  genPred : ℚ
  gen : Option ℚ
deriving DecidableEq, Repr, Inhabited

/-- Row `j` of the synthetic generation table: it belongs to water year
`j / 12` and water month `j % 12 + 1`, carries that year's synthetic SWE pair,
reads its whitened residual from the burn-in-trimmed AR column, predicts from
the month's regression parameters, de-whitens through the historical group
statistics, sums prediction and residual, and clips to the historical
generation range. -/
def synthGenRow (hrows : List GenRow) (P : ℕ → MonthParams)
    (stdOf : ℕ → WGroup → ℚ) (snowFeb snowApr : ℕ → ℚ)
    (ar1 ar3 i0 i1 i2 : ℚ) (innov : ℕ → ℚ) (nSamples : ℕ) (j : ℕ) : SynthRow :=
  let m := j % 12 + 1
  let sF := snowFeb (j / 12)
  let sA := snowApr (j / 12)
  let z := (residSDeCol ar1 ar3 i0 i1 i2 innov nSamples).getD j 0
  let pred := genPredSynth P m sF sA
  let rS := invWhiten P stdOf hrows m pred z
  { wyr := j / 12, wmnth := m, sweFeb := sF, sweApr := sA, residSDe := z,
    residS := rS, genPred := pred,
    gen := clipGen (hrows.map GenRow.tot) (rS.map fun w => pred + w) }

/-- The assembled synthetic generation table, one row per simulated
(year, month) pair. -/
def synthGenTable (hrows : List GenRow) (P : ℕ → MonthParams)
    (stdOf : ℕ → WGroup → ℚ) (snowFeb snowApr : ℕ → ℚ)
    (ar1 ar3 i0 i1 i2 : ℚ) (innov : ℕ → ℚ) (nSamples : ℕ) : List SynthRow :=
  (List.range (nSamples * 12)).map
    (synthGenRow hrows P stdOf snowFeb snowApr ar1 ar3 i0 i1 i2 innov nSamples)

/-- The AR(1,3) in-sample residual column `genResidSDeAR`: `NaN` for the first
three rows, and `x_i - ar1 * x_(i-1) - ar3 * x_(i-3)` afterwards, propagating
`NaN` from any of the three cells involved. -/
def genResidSDeARCol (sde : List (Option ℚ)) (ar1 ar3 : ℚ) : List (Option ℚ) :=
  (List.range sde.length).map fun i =>
    if i < 3 then none
    else
      match sde.getD i none, sde.getD (i - 1) none, sde.getD (i - 3) none with
      | some x, some y, some w => some (x - ar1 * y - ar3 * w)
      | _, _, _ => none

/-- `synthetic_generation` with the persistence boundary made explicit.  With
`redo = true` it fits the per-month parameter table (external fit results
supplied as arguments), attaches the four derived columns to the historical
table it was handed, and builds the synthetic table; the second component of
the result is the historical table as it stands after the call.  With
`redo = false` the pickled table `cached` is returned and the historical
table is untouched.  The stray re-deseasonalization block between the
prediction loop and the re-seasonalization loop recomputes
`gen.genResidSDe` for the loop's final month with identical values and is
omitted as the no-op it is. -/
def synthetic_generation (hist : GenHist)
    (curveFitApr : ℕ → ℚ × ℚ × ℚ) (olsFeb olsApr : ℕ → ℚ × ℚ)
    (stdOf : ℕ → WGroup → ℚ) (ar1 ar3 : ℚ) (snowFeb snowApr : ℕ → ℚ)
    (i0 i1 i2 : ℚ) (innov : ℕ → ℚ) (nSamples : ℕ)
    (redo : Bool) (cached : List SynthRow) : List SynthRow × GenHist :=
  if redo then
    let P := lmGenWmnthParams hist.rows curveFitApr olsFeb olsApr
    let sde := hist.rows.map fun r => genResidSDeRow P stdOf hist.rows r
    let hist' : GenHist :=
      { hist with
        genPredS := some (hist.rows.map fun r => genPredS1 P r),
        genResidS := some (hist.rows.map fun r => r.tot - genPredS1 P r),
        genResidSDe := some sde,
        genResidSDeAR := some (genResidSDeARCol sde ar1 ar3) }
    (synthGenTable hist.rows P stdOf snowFeb snowApr ar1 ar3 i0 i1 i2 innov nSamples,
     hist')
  else (cached, hist)

/-! ### `synthetic_power`: log-deseasonalized seasonal ARMA price simulation -/

/-- One row of the historical power price record: monthly mean price and
water-month index (columns `priceMean`, `wmnth`). -/
structure PowRow where
  priceMean : ℝ
  wmnth : ℕ

/-- The historical price table, with the two derived columns that
`synthetic_power` attaches to it (`logMean`, `logDe`) modelled as optional
columns, `none` before the function runs. -/
structure PowHist where
  rows : List PowRow
  logMean : Option (List ℝ) := none
  logDe : Option (List ℝ) := none

/-- Arithmetic mean of a list of reals (`pandas.Series.mean`). -/
noncomputable def rListMean (xs : List ℝ) : ℝ := xs.sum / xs.length

/-- Sample standard deviation of a list of reals with one delta degree of
freedom (`pandas.Series.std`). -/
noncomputable def rListStd (xs : List ℝ) : ℝ :=
  Real.sqrt ((xs.map (fun x => (x - rListMean xs) ^ 2)).sum / (xs.length - 1 : ℝ))

/-- The log-price values of the historical rows of water month `m`
(`power.logMean.loc[power.wmnth == i]`). -/
noncomputable def monthLogMean (prows : List PowRow) (m : ℕ) : List ℝ :=
  ((prows.filter fun r => r.wmnth == m).map fun r => Real.log r.priceMean)

/-- The deseasonalized log-price column `power.logDe`: each row's log price
standardized by its month's historical mean and standard deviation. -/
noncomputable def powLogDeCol (prows : List PowRow) : List ℝ :=
  prows.map fun r =>
    (Real.log r.priceMean - rListMean (monthLogMean prows r.wmnth)) /
      rListStd (monthLogMean prows r.wmnth)

/-- Burn-in years of the price simulation (`burn = 4` in the source). -/
def burn : ℕ := 4

/-- The SARMA residual column of the simulation buffer (`dum[:, 3]`): the
first 12 cells carry the final historical year of fitted-model residuals, the
rest the freshly drawn innovations. -/
def powResidCol (histResid innov : ℕ → ℝ) : ℕ → ℝ :=
  fun i => if i < 12 then histResid i else innov i

/-- The deseasonalized log-price recursion (`dum[i, 2] = logDeAR1coef *
dum[i-1, 2] + logDeMA12coef * dum[i-12, 3] + dum[i, 3]`), seeded on its first
12 cells with the final historical year of deseasonalized log prices. -/
noncomputable def powDeSeq (a1 ma12 : ℝ) (logDeInit resid : ℕ → ℝ) (n : ℕ) : ℝ :=
  if n < 12 then logDeInit n
  else a1 * powDeSeq a1 ma12 logDeInit resid (n - 1) + ma12 * resid (n - 12) + resid n
termination_by n
decreasing_by omega

/-- One row of the synthetic price table `powSynth`. -/
structure PowSynthRow where
  wyr : ℕ
  wmnth : ℕ
  powPrice : ℝ

/-- Row `j` of the synthetic price table: after discarding `burn * 12` rows,
row `j` re-seasonalizes its simulated deseasonalized log price by its month's
historical log-price standard deviation and mean and exponentiates
(`powSynth.powPrice = np.exp(powSynth.logPrice)`).  `a1` and `ma12` are the
fitted SARIMAX coefficients, `histResid` the final historical year of fitted
residuals, `innov` the seeded innovation stream. -/
noncomputable def powSynthRowAt (prows : List PowRow) (a1 ma12 : ℝ)
    (histResid innov : ℕ → ℝ) (j : ℕ) : PowSynthRow :=
  let logDeC := powLogDeCol prows
  let logDeInit := fun i => (logDeC.drop (logDeC.length - 12)).getD i 0
  let resid := powResidCol histResid innov
  let m := j % 12 + 1
  let ld := powDeSeq a1 ma12 logDeInit resid (j + burn * 12)
  let lp := ld * rListStd (monthLogMean prows m) + rListMean (monthLogMean prows m)
  { wyr := j / 12, wmnth := m, powPrice := Real.exp lp }

/-- The assembled synthetic price table, one row per simulated (year, month)
pair. -/
noncomputable def powSynthTable (prows : List PowRow) (a1 ma12 : ℝ)
    (histResid innov : ℕ → ℝ) (nSamples : ℕ) : List PowSynthRow :=
  (List.range (nSamples * 12)).map (powSynthRowAt prows a1 ma12 histResid innov)

/-- `synthetic_power` with the persistence boundary made explicit.  With
`redo = true` it attaches the `logMean` and `logDe` columns to the historical
table it was handed and builds the synthetic table (SARIMAX coefficients and
residuals supplied as arguments, being external fit results); the second
component is the historical table as it stands after the call.  With
`redo = false` the pickled table `cached` is returned and the historical
table is untouched. -/
noncomputable def synthetic_power (hist : PowHist) (a1 ma12 : ℝ)
    (histResid innov : ℕ → ℝ) (nSamples : ℕ)
    (redo : Bool) (cached : List PowSynthRow) : List PowSynthRow × PowHist :=
  if redo then
    (powSynthTable hist.rows a1 ma12 histResid innov nSamples,
     { hist with
       logMean := some (hist.rows.map fun r => Real.log r.priceMean),
       logDe := some (powLogDeCol hist.rows) })
  else (cached, hist)

/-! ### Seeded entry points

Each pipeline stage begins by reseeding the numpy global generator with its
own literal seed and then consumes draws from the reseeded stream, so its
output is a function of its inputs and its seed alone; the incoming generator
state `rs` is discarded.  The per-stage transforms from raw draws to normal
or bivariate-normal variates (`mvnPair` for the SWE stage, and the
innovation scale for the other two being folded into the modelled stream) are
abstract arguments, as above. -/

/-- `synthetic_swe` as executed: seeds the generator with `sweSeed` and feeds
the copula sampler with pairs formed from the seeded stream. -/
def synthetic_swe_run (kendalltau : List ℚ → List ℚ → ℚ) (sin' : ℚ → ℚ) (pi' : ℚ)
    (mvnPair : ℚ → ℚ → ℚ → ℚ × ℚ) (norm_cdf : ℚ → ℚ)
    (gamma_ppf : ℚ → ℚ → ℚ → ℚ) (gamma_fit : List ℚ → ℚ × ℚ)
    (danFeb danApr : List ℚ) (redo : Bool) (cached : List (ℚ × ℚ))
    (_rs : ℕ) : List (ℚ × ℚ) :=
  synthetic_swe kendalltau sin' pi'
    (fun rho n => (List.range n).map fun i =>
      mvnPair rho (stageStream sweSeed (2 * i)) (stageStream sweSeed (2 * i + 1)))
    norm_cdf gamma_ppf gamma_fit danFeb danApr redo cached

/-- `synthetic_generation` as executed: seeds the generator with `genSeed`,
draws the `(nSamples + 1) * 12` innovations and then the three initial
residuals from the seeded stream. -/
def synthetic_generation_run (hist : GenHist)
    (curveFitApr : ℕ → ℚ × ℚ × ℚ) (olsFeb olsApr : ℕ → ℚ × ℚ)
    (stdOf : ℕ → WGroup → ℚ) (ar1 ar3 : ℚ) (snowFeb snowApr : ℕ → ℚ)
    (nSamples : ℕ) (redo : Bool) (cached : List SynthRow)
    (_rs : ℕ) : List SynthRow × GenHist :=
  synthetic_generation hist curveFitApr olsFeb olsApr stdOf ar1 ar3 snowFeb snowApr
    (stageStream genSeed ((nSamples + 1) * 12))
    (stageStream genSeed ((nSamples + 1) * 12 + 1))
    (stageStream genSeed ((nSamples + 1) * 12 + 2))
    (stageStream genSeed) nSamples redo cached

/-- `synthetic_power` as executed: seeds the generator with `powSeed` and
draws the innovation stream from the seeded stream. -/
noncomputable def synthetic_power_run (hist : PowHist) (a1 ma12 : ℝ)
    (histResid : ℕ → ℝ) (nSamples : ℕ) (redo : Bool) (cached : List PowSynthRow)
    (_rs : ℕ) : List PowSynthRow × PowHist :=
  synthetic_power hist a1 ma12 histResid
    (fun i => ((stageStream powSeed i : ℚ) : ℝ)) nSamples redo cached

/-! ### Concrete instances used by counterexamples and witnesses -/

/-- Constant parameter table with the sentinel threshold, used as a witness
instance. -/
def P0 : ℕ → MonthParams := fun _ => { int := 0, sweFebSlp := 0, sweAprSlp := 0, thres := 1000 }

/-- Unit stored standard deviations. -/
def std1 : ℕ → WGroup → ℚ := fun _ _ => 1

/-- A single historical row: generation `1` in water month `1`. -/
def r0 : GenRow := { tot := 1, wmnth := 1, sweFeb := 0, sweApr := 0 }

/-- A one-row historical generation table with generation `100` in water
month `1` (so the historical range is the single point `100`). -/
def histBad : GenHist := { rows := [{ tot := 100, wmnth := 1, sweFeb := 0, sweApr := 0 }] }

/-- Fitted `curve_fit` values for the ceiling months: intercept `100`,
slope `1`, threshold `200`. -/
def cfitBad : ℕ → ℚ × ℚ × ℚ := fun _ => (100, 1, 200)

/-- Zero OLS coefficients for the plain linear months. -/
def ols0 : ℕ → ℚ × ℚ := fun _ => (0, 0)

/-- Synthetic April SWE chosen so the ceiling months predict exactly
`thres - eps`: `100 + 1 * (100 - eps) = 200 - eps`. -/
def snowABad : ℕ → ℚ := fun _ => 100 - eps

/-- The all-zero draw stream. -/
def zeroStream : ℕ → ℚ := fun _ => 0

/-- One simulated year of `synthetic_generation` on `histBad` with the April
SWE pinned at the threshold-minus-epsilon point. -/
def genTblBad : List SynthRow :=
  (synthetic_generation histBad cfitBad ols0 ols0 std1 0 0 zeroStream snowABad
    0 0 0 zeroStream 1 true []).1

/-- One simulated year of `synthetic_generation` on `histBad` with zero
synthetic SWE, away from every threshold boundary. -/
def genTblOK : List SynthRow :=
  (synthetic_generation histBad cfitBad ols0 ols0 std1 0 0 zeroStream zeroStream
    0 0 0 zeroStream 1 true []).1

/-- A one-row historical price table. -/
def powHist0 : PowHist := { rows := [{ priceMean := 1, wmnth := 1 }] }

/-! ### Helper lemmas -/

theorem foldl_min_le (xs : List ℚ) (x : ℚ) : xs.foldl min x ≤ x := by
  induction xs generalizing x with
  | nil => simp
  | cons y ys ih => exact le_trans (ih (min x y)) (min_le_left x y)

theorem le_foldl_max (xs : List ℚ) (x : ℚ) : x ≤ xs.foldl max x := by
  induction xs generalizing x with
  | nil => simp
  | cons y ys ih => exact le_trans (le_max_left x y) (ih (max x y))

theorem colMin_le_colMax {xs : List ℚ} {lo hi : ℚ}
    (h1 : colMin xs = some lo) (h2 : colMax xs = some hi) : lo ≤ hi := by
  cases xs with
  | nil => simp [colMin] at h1
  | cons x ys =>
    simp only [colMin, colMax, Option.some.injEq] at h1 h2
    calc lo = ys.foldl min x := h1.symm
    _ ≤ x := foldl_min_le ys x
    _ ≤ ys.foldl max x := le_foldl_max ys x
    _ = hi := h2

theorem getD_map_range {α : Type} (f : ℕ → α) {n j : ℕ} (d : α) (h : j < n) :
    ((List.range n).map f).getD j d = f j := by
  rw [List.getD_eq_getElem?_getD, List.getElem?_map, List.getElem?_range h]; rfl

theorem residSDeCol_getD (ar1 ar3 i0 i1 i2 : ℚ) (innov : ℕ → ℚ) {nSamples j : ℕ}
    (h : j < nSamples * 12) :
    (residSDeCol ar1 ar3 i0 i1 i2 innov nSamples).getD j 0 =
      arSeq ar1 ar3 i0 i1 i2 innov (j + 12) := by
  unfold residSDeCol
  rw [List.getD_eq_getElem?_getD, List.getElem?_drop, List.getElem?_map,
    List.getElem?_range (show 12 + j < (nSamples + 1) * 12 by omega)]
  rw [Nat.add_comm 12 j]
  rfl

theorem clipGen_bounds {tot : List ℚ} {lo hi : ℚ} (h1 : colMin tot = some lo)
    (h2 : colMax tot = some hi) {o : Option ℚ} {v : ℚ}
    (hv : clipGen tot o = some v) : lo ≤ v ∧ v ≤ hi := by
  have hlh := colMin_le_colMax h1 h2
  unfold clipGen at hv
  rw [h1, h2] at hv
  cases o with
  | none => exact absurd hv (by simp)
  | some x =>
    simp only [Option.map_some', Option.some.injEq] at hv
    rw [← hv]
    split_ifs <;> constructor <;> linarith

/-! ### C1: round trip of the per-month whitening transform -/

/-- C1: for every historical generation residual whose row is classified into
a whitening group (whole month, above threshold, or below threshold),
applying the forward whitening transform and then the inverse transform with
the same stored group mean and standard deviation reproduces the original
residual within tolerance `1e-9` (the rational-arithmetic round trip is in
fact exact), provided the stored group standard deviation is nonzero. -/
theorem C1_whitening_roundtrip (P : ℕ → MonthParams) (stdOf : ℕ → WGroup → ℚ)
    (hrows : List GenRow) (r : GenRow) (g : WGroup) (_hr : r ∈ hrows)
    (hg : classifyGroup (P r.wmnth) (genPredS1 P r) = some g)
    (hs : stdOf r.wmnth g ≠ 0) :
    ∃ w, (genResidSDeRow P stdOf hrows r).bind
        (invWhiten P stdOf hrows r.wmnth (genPredS1 P r)) = some w ∧
      |w - (r.tot - genPredS1 P r)| ≤ 1 / 10 ^ 9 := by
  refine ⟨r.tot - genPredS1 P r, ?_, by simp⟩
  simp only [genResidSDeRow, invWhiten, hg, Option.map_some', Option.some_bind,
    Option.some.injEq]
  rw [div_mul_cancel₀ _ hs]
  ring

/-- Witness for C1 at a concrete one-row table: month 1 carries the sentinel
threshold, so the row falls in the whole-month group with unit standard
deviation. -/
theorem C1_whitening_roundtrip_witness :
    ∃ w, (genResidSDeRow P0 std1 [r0] r0).bind
        (invWhiten P0 std1 [r0] r0.wmnth (genPredS1 P0 r0)) = some w ∧
      |w - (r0.tot - genPredS1 P0 r0)| ≤ 1 / 10 ^ 9 :=
  C1_whitening_roundtrip P0 std1 [r0] r0 WGroup.whole (by decide) (by decide) (by decide)

/-! ### C5: AR(1,3) recursion, initialization and burn-in -/

/-- C5: the simulated whitened residual sequence satisfies
`residual[t] = AR1coef * residual[t-1] + AR3coef * residual[t-3] + innovation[t]`
for every `t ≥ 3`, its first three values are the three separately drawn
initial values, and exactly the first 12 entries of the generated sequence
are discarded: row `j` of the synthetic table reads entry `j + 12`. -/
theorem C5_ar_recursion_burnin (hrows : List GenRow) (P : ℕ → MonthParams)
    (stdOf : ℕ → WGroup → ℚ) (snowFeb snowApr : ℕ → ℚ)
    (ar1 ar3 i0 i1 i2 : ℚ) (innov : ℕ → ℚ) (nSamples : ℕ) :
    (∀ t, 3 ≤ t → arSeq ar1 ar3 i0 i1 i2 innov t =
        ar1 * arSeq ar1 ar3 i0 i1 i2 innov (t - 1) +
        ar3 * arSeq ar1 ar3 i0 i1 i2 innov (t - 3) + innov t) ∧
    (arSeq ar1 ar3 i0 i1 i2 innov 0 = i0 ∧ arSeq ar1 ar3 i0 i1 i2 innov 1 = i1 ∧
      arSeq ar1 ar3 i0 i1 i2 innov 2 = i2) ∧
    (∀ j, j < nSamples * 12 →
      ((synthGenTable hrows P stdOf snowFeb snowApr ar1 ar3 i0 i1 i2 innov
          nSamples).getD j default).residSDe =
        arSeq ar1 ar3 i0 i1 i2 innov (j + 12)) := by
  refine ⟨?_, ⟨rfl, rfl, rfl⟩, ?_⟩
  · intro t ht
    obtain ⟨n, rfl⟩ : ∃ n, t = n + 3 := ⟨t - 3, by omega⟩
    rfl
  · intro j hj
    rw [synthGenTable, getD_map_range _ default hj]
    exact residSDeCol_getD ar1 ar3 i0 i1 i2 innov hj

/-- Witness for C5 at one simulated year with unit coefficients, initial
values and innovations. -/
theorem C5_ar_recursion_burnin_witness :
    (0 : ℕ) < 1 * 12 ∧
    ((synthGenTable [] P0 std1 zeroStream zeroStream 1 1 1 1 1 (fun _ => 1)
        1).getD 0 default).residSDe = arSeq 1 1 1 1 1 (fun _ => 1) (0 + 12) :=
  ⟨by norm_num,
    (C5_ar_recursion_burnin [] P0 std1 zeroStream zeroStream 1 1 1 1 1
      (fun _ => 1) 1).2.2 0 (by norm_num)⟩

/-! ### C9: constant-regime months predict the historical month mean -/

/-- C9: in the synthetic generation table built from the fitted per-month
parameter table, every row of a constant-regime month (water months 1 and 12,
whose stored slopes are zero and whose intercept is the historical month
mean), for every simulated year, has predicted generation exactly equal to
the historical month mean, provided that mean lies below the sentinel
ceiling value `1000`. -/
theorem C9_constant_month_mean (hrows : List GenRow) (curveFitApr : ℕ → ℚ × ℚ × ℚ)
    (olsFeb olsApr : ℕ → ℚ × ℚ) (stdOf : ℕ → WGroup → ℚ) (snowFeb snowApr : ℕ → ℚ)
    (ar1 ar3 i0 i1 i2 : ℚ) (innov : ℕ → ℚ) (nSamples j : ℕ) (hj : j < nSamples * 12)
    (hm : j % 12 + 1 = 1 ∨ j % 12 + 1 = 12)
    (hmean : listMean (monthTot hrows (j % 12 + 1)) < 1000) :
    ((synthGenTable hrows (lmGenWmnthParams hrows curveFitApr olsFeb olsApr) stdOf
        snowFeb snowApr ar1 ar3 i0 i1 i2 innov nSamples).getD j default).genPred =
      listMean (monthTot hrows (j % 12 + 1)) := by
  rw [synthGenTable, getD_map_range _ default hj]
  show genPredSynth (lmGenWmnthParams hrows curveFitApr olsFeb olsApr) (j % 12 + 1)
      (snowFeb (j / 12)) (snowApr (j / 12)) = _
  rcases hm with hm | hm <;>
  · rw [hm] at hmean ⊢
    simp only [genPredSynth, lmGenWmnthParams]
    norm_num
    exact le_of_lt hmean

/-- Witness for C9: one simulated year over the one-row month-1 history of
`histBad`, whose month-1 mean is `100 < 1000`; row 0 is a month-1 row. -/
theorem C9_constant_month_mean_witness :
    (0 : ℕ) < 1 * 12 ∧ ((0 : ℕ) % 12 + 1 = 1 ∨ (0 : ℕ) % 12 + 1 = 12) ∧
    listMean (monthTot histBad.rows (0 % 12 + 1)) < 1000 ∧
    ((synthGenTable histBad.rows (lmGenWmnthParams histBad.rows cfitBad ols0 ols0)
        std1 zeroStream zeroStream 0 0 0 0 0 zeroStream 1).getD 0 default).genPred =
      listMean (monthTot histBad.rows (0 % 12 + 1)) :=
  ⟨by norm_num, Or.inl rfl, by decide,
    C9_constant_month_mean histBad.rows cfitBad ols0 ols0 std1 zeroStream zeroStream
      0 0 0 0 0 zeroStream 1 0 (by norm_num) (Or.inl rfl) (by decide)⟩

/-! ### C2: bounds on the clipped synthetic generation column -/

/-- Counterexample to C2 as stated: on `histBad` (historical generation range
the single point `100`) with synthetic April SWE pinned so that the ceiling
months predict exactly `thres - eps`, row 5 (water month 6) of the returned
table carries no generation value at all — its cell is `NaN` — so not every
value of the `gen` column lies in the historical range. -/
theorem C2_bounds_counterexample :
    colMin (histBad.rows.map GenRow.tot) = some 100 ∧
    colMax (histBad.rows.map GenRow.tot) = some 100 ∧
    genTblBad.getD 5 default ∈ genTblBad ∧
    (genTblBad.getD 5 default).gen = none := by decide

/-- C2 (amended): after the clipping step, every row of the synthetic
generation table whose `gen` cell carries a value (every row classified into
a whitening group; a ceiling-month row predicting exactly `thres - eps` keeps
a `NaN` cell instead) has that value inside the closed interval from the
historical minimum to the historical maximum generation. -/
theorem C2_clip_bounds (hrows : List GenRow) (P : ℕ → MonthParams)
    (stdOf : ℕ → WGroup → ℚ) (snowFeb snowApr : ℕ → ℚ) (ar1 ar3 i0 i1 i2 : ℚ)
    (innov : ℕ → ℚ) (nSamples : ℕ) (r : SynthRow) (v lo hi : ℚ)
    (hr : r ∈ synthGenTable hrows P stdOf snowFeb snowApr ar1 ar3 i0 i1 i2 innov nSamples)
    (hv : r.gen = some v)
    (h1 : colMin (hrows.map GenRow.tot) = some lo)
    (h2 : colMax (hrows.map GenRow.tot) = some hi) :
    lo ≤ v ∧ v ≤ hi := by
  obtain ⟨j, hj, rfl⟩ := List.mem_map.1 hr
  exact clipGen_bounds h1 h2 hv

/-- Witness for C2 at a concrete benign instance: row 0 of `genTblOK` carries
the value `100`, inside the degenerate historical range `[100, 100]`. -/
theorem C2_clip_bounds_witness :
    (genTblOK.getD 0 default).gen = some 100 ∧ (100 : ℚ) ≤ 100 ∧ (100 : ℚ) ≤ 100 :=
  ⟨by decide,
    C2_clip_bounds histBad.rows (lmGenWmnthParams histBad.rows cfitBad ols0 ols0) std1
      zeroStream zeroStream 0 0 0 0 0 zeroStream 1 (genTblOK.getD 0 default) 100 100 100
      (by decide) (by decide) (by decide) (by decide)⟩

/-! ### C10: the exact threshold-minus-epsilon boundary row -/

/-- C10: the inverse whitening masks of a ceiling-regime month assign a
de-whitened residual exactly to the rows predicting strictly above or
strictly below `thres - eps` (a row predicting exactly `thres - eps` is
classified into no group), and on a concrete input realizing that boundary —
`genTblBad`, whose month-6 row predicts exactly `200 - eps` — the row's
residual and final generation cells remain `NaN`, the clipping step not
replacing them. -/
theorem C10_threshold_nan :
    (∀ (p : MonthParams) (pred : ℚ), p.thres ≤ 999 →
      (classifyGroup p pred = none ↔ pred = p.thres - eps)) ∧
    (genTblBad.getD 5 default).wmnth = 6 ∧
    (genTblBad.getD 5 default).genPred = 200 - eps ∧
    (genTblBad.getD 5 default).residS = none ∧
    (genTblBad.getD 5 default).gen = none := by
  refine ⟨?_, by decide, by decide, by decide, by decide⟩
  intro p pred hp
  unfold classifyGroup
  rw [if_neg (by linarith)]
  rcases lt_trichotomy pred (p.thres - eps) with h | h | h
  · rw [if_neg (by linarith), if_pos h]
    exact iff_of_false (by simp) (by intro hh; rw [hh] at h; exact lt_irrefl _ h)
  · rw [if_neg (show ¬(p.thres - eps < pred) by rw [h]; exact lt_irrefl _),
      if_neg (show ¬(pred < p.thres - eps) by rw [h]; exact lt_irrefl _)]
    exact iff_of_true rfl h
  · rw [if_pos h]
    exact iff_of_false (by simp) (by intro hh; rw [hh] at h; exact lt_irrefl _ h)

/-- Witness for C10's classification clause at the concrete ceiling
parameters of `cfitBad` and the boundary prediction `200 - eps`. -/
theorem C10_threshold_nan_witness :
    ({ int := 100, sweFebSlp := 0, sweAprSlp := 1, thres := 200 } : MonthParams).thres ≤ 999 ∧
    (classifyGroup { int := 100, sweFebSlp := 0, sweAprSlp := 1, thres := 200 } (200 - eps) = none ↔
      (200 - eps : ℚ) = ({ int := 100, sweFebSlp := 0, sweAprSlp := 1, thres := 200 } : MonthParams).thres - eps) :=
  ⟨by norm_num,
    C10_threshold_nan.1 { int := 100, sweFebSlp := 0, sweAprSlp := 1, thres := 200 }
      (200 - eps) (by norm_num)⟩

/-! ### C3: two-run determinism and distinct per-stage seeds -/

/-- C3: given identical historical inputs and the fixed component seeds, two
executions of the three pipeline stages from arbitrary (and possibly
different) incoming generator states produce identical synthetic SWE,
generation and price tables — each stage reseeds the global generator with
its own literal seed, so its output does not depend on the incoming state —
and the three seeds are pairwise distinct. -/
theorem C3_determinism
    (kendalltau : List ℚ → List ℚ → ℚ) (sin' : ℚ → ℚ) (pi' : ℚ)
    (mvnPair : ℚ → ℚ → ℚ → ℚ × ℚ) (norm_cdf : ℚ → ℚ) (gamma_ppf : ℚ → ℚ → ℚ → ℚ)
    (gamma_fit : List ℚ → ℚ × ℚ) (danFeb danApr : List ℚ) (redoS : Bool)
    (cachedS : List (ℚ × ℚ)) (hist : GenHist) (curveFitApr : ℕ → ℚ × ℚ × ℚ)
    (olsFeb olsApr : ℕ → ℚ × ℚ) (stdOf : ℕ → WGroup → ℚ) (ar1 ar3 : ℚ)
    (snowFeb snowApr : ℕ → ℚ) (nG : ℕ) (redoG : Bool) (cachedG : List SynthRow)
    (phist : PowHist) (a1 ma12 : ℝ) (histResid : ℕ → ℝ) (nP : ℕ) (redoP : Bool)
    (cachedP : List PowSynthRow) (rs1 rs2 : ℕ) :
    synthetic_swe_run kendalltau sin' pi' mvnPair norm_cdf gamma_ppf gamma_fit
        danFeb danApr redoS cachedS rs1 =
      synthetic_swe_run kendalltau sin' pi' mvnPair norm_cdf gamma_ppf gamma_fit
        danFeb danApr redoS cachedS rs2 ∧
    synthetic_generation_run hist curveFitApr olsFeb olsApr stdOf ar1 ar3 snowFeb snowApr
        nG redoG cachedG rs1 =
      synthetic_generation_run hist curveFitApr olsFeb olsApr stdOf ar1 ar3 snowFeb snowApr
        nG redoG cachedG rs2 ∧
    synthetic_power_run phist a1 ma12 histResid nP redoP cachedP rs1 =
      synthetic_power_run phist a1 ma12 histResid nP redoP cachedP rs2 ∧
    sweSeed ≠ genSeed ∧ sweSeed ≠ powSeed ∧ genSeed ≠ powSeed :=
  ⟨rfl, rfl, rfl, by decide, by decide, by decide⟩

/-! ### C4: the `redo` branch of `synthetic_swe` against the spec algorithm -/

/-- C4: with `redo = true`, `synthetic_swe` computes exactly the spec's copula
sampling algorithm — Kendall's tau of the two historical SWE columns,
Gaussian-equivalent correlation `sin (tau * pi / 2)`, `N_SAMPLES` bivariate
normal draws at that correlation mapped through the standard normal CDF and
the fitted gamma quantile functions (location `0`) — and returns a table of
exactly `N_SAMPLES` (danFeb, danApr) pairs, given that the bivariate sampler
returns as many draws as requested. -/
theorem C4_swe_sampler_refines_spec (kendalltau : List ℚ → List ℚ → ℚ) (sin' : ℚ → ℚ)
    (pi' : ℚ) (mvn_rvs : ℚ → ℕ → List (ℚ × ℚ)) (norm_cdf : ℚ → ℚ)
    (gamma_ppf : ℚ → ℚ → ℚ → ℚ) (gamma_fit : List ℚ → ℚ × ℚ)
    (danFeb danApr : List ℚ) (cached : List (ℚ × ℚ))
    (hlen : ∀ rho n, (mvn_rvs rho n).length = n) :
    synthetic_swe kendalltau sin' pi' mvn_rvs norm_cdf gamma_ppf gamma_fit danFeb danApr
        true cached =
      copulaSampler_spec kendalltau sin' pi' mvn_rvs norm_cdf gamma_ppf gamma_fit
        danFeb danApr ∧
    (synthetic_swe kendalltau sin' pi' mvn_rvs norm_cdf gamma_ppf gamma_fit danFeb danApr
        true cached).length = N_SAMPLES := by
  constructor
  · show synthetic_swe_core kendalltau sin' pi' mvn_rvs norm_cdf gamma_ppf gamma_fit
        danFeb danApr = _
    rw [synthetic_swe_core, copulaSampler_spec, List.map_map]
    rfl
  · show (synthetic_swe_core kendalltau sin' pi' mvn_rvs norm_cdf gamma_ppf gamma_fit
        danFeb danApr).length = N_SAMPLES
    rw [synthetic_swe_core, List.length_map, hlen]

/-- Witness for C4 with concrete primitives: a replicate-based sampler whose
length contract holds definitionally. -/
theorem C4_swe_sampler_refines_spec_witness :
    (∀ rho n, ((fun (_ : ℚ) (n : ℕ) => List.replicate n ((0 : ℚ), (0 : ℚ))) rho n).length = n) ∧
    (synthetic_swe (fun _ _ => 0) id 0 (fun _ n => List.replicate n (0, 0)) id
        (fun _ _ u => u) (fun _ => (1, 1)) [] [] true [] =
      copulaSampler_spec (fun _ _ => 0) id 0 (fun _ n => List.replicate n (0, 0)) id
        (fun _ _ u => u) (fun _ => (1, 1)) [] [] ∧
     (synthetic_swe (fun _ _ => 0) id 0 (fun _ n => List.replicate n (0, 0)) id
        (fun _ _ u => u) (fun _ => (1, 1)) [] [] true []).length = N_SAMPLES) :=
  ⟨fun _ n => List.length_replicate n _,
    C4_swe_sampler_refines_spec (fun _ _ => 0) id 0 (fun _ n => List.replicate n (0, 0)) id
      (fun _ _ u => u) (fun _ => (1, 1)) [] [] [] (fun _ n => List.length_replicate n _)⟩

/-! ### C6: positivity of the synthetic price column -/

/-- C6: every `powPrice` value of the synthetic price table is strictly
positive, being the exponential of a (finite) re-seasonalized log price. -/
theorem C6_price_positive (prows : List PowRow) (a1 ma12 : ℝ) (histResid innov : ℕ → ℝ)
    (nSamples : ℕ) (r : PowSynthRow)
    (hr : r ∈ powSynthTable prows a1 ma12 histResid innov nSamples) :
    0 < r.powPrice := by
  rw [powSynthTable] at hr
  obtain ⟨j, hj, rfl⟩ := List.mem_map.1 hr
  exact Real.exp_pos _

/-- Witness for C6 at a one-row price history and one simulated year. -/
theorem C6_price_positive_witness :
    powSynthRowAt powHist0.rows 0 0 (fun _ => 0) (fun _ => 0) 0 ∈
      powSynthTable powHist0.rows 0 0 (fun _ => 0) (fun _ => 0) 1 ∧
    0 < (powSynthRowAt powHist0.rows 0 0 (fun _ => 0) (fun _ => 0) 0).powPrice := by
  have hmem : powSynthRowAt powHist0.rows 0 0 (fun _ => 0) (fun _ => 0) 0 ∈
      powSynthTable powHist0.rows 0 0 (fun _ => 0) (fun _ => 0) 1 :=
    List.mem_map_of_mem (powSynthRowAt powHist0.rows 0 0 (fun _ => 0) (fun _ => 0))
      (by simp)
  exact ⟨hmem, C6_price_positive powHist0.rows 0 0 (fun _ => 0) (fun _ => 0) 1 _ hmem⟩

/-! ### C7: Marginal Fitter failure cases -/

/-- C7: the Marginal Fitter fails with a `FitError` — it never returns
parameters — on a degenerate (zero-variance) sample or on a sample containing
a negative value. -/
theorem C7_gamma_fit_errors (xs : List ℚ)
    (h : listVar xs = 0 ∨ ∃ x ∈ xs, x < 0) :
    ∃ e, gamma_fit_model xs = Except.error e := by
  by_cases hneg : (xs.any fun x => decide (x < 0)) = true
  · exact ⟨FitError.negativeValues, by rw [gamma_fit_model, if_pos hneg]⟩
  · rcases h with h | ⟨x, hx, hxneg⟩
    · exact ⟨FitError.degenerateSample, by rw [gamma_fit_model, if_neg hneg, if_pos h]⟩
    · exact absurd (List.any_eq_true.2 ⟨x, hx, by simpa using hxneg⟩) hneg

/-- Witness for C7 on the degenerate two-element sample `[1, 1]`. -/
theorem C7_gamma_fit_errors_witness :
    (listVar [1, 1] = 0 ∨ ∃ x ∈ [(1 : ℚ), 1], x < 0) ∧
    ∃ e, gamma_fit_model [1, 1] = Except.error e :=
  ⟨Or.inl (by decide), C7_gamma_fit_errors [1, 1] (Or.inl (by decide))⟩

/-! ### C8: what the stages do to the historical tables they are handed -/

/-- Counterexample to C8 as stated: `synthetic_generation` and
`synthetic_power` do not leave the historical tables they are handed
unchanged — both return a historical table that differs from the input by
the derived columns attached to it. -/
theorem C8_readonly_counterexample :
    (synthetic_generation histBad cfitBad ols0 ols0 std1 0 0 zeroStream zeroStream
        0 0 0 zeroStream 1 true []).2 ≠ histBad ∧
    (synthetic_power powHist0 0 0 (fun _ => 0) (fun _ => 0) 1 true []).2 ≠ powHist0 := by
  constructor
  · decide
  · intro h
    have h2 := congrArg PowHist.logMean h
    simp [synthetic_power, powHist0] at h2

/-- C8 (amended): the stages never modify the pre-existing base columns of
the historical tables — the historical generation rows (`tot`, `wmnth`,
`sweFeb`, `sweApr`) and the historical price rows (`priceMean`, `wmnth`) are
returned exactly as passed in — but they do attach derived columns
(`genPredS`, `genResidS`, `genResidSDe`, `genResidSDeAR`; `logMean`,
`logDe`) to those tables. -/
theorem C8_base_columns_preserved (hist : GenHist) (curveFitApr : ℕ → ℚ × ℚ × ℚ)
    (olsFeb olsApr : ℕ → ℚ × ℚ) (stdOf : ℕ → WGroup → ℚ) (ar1 ar3 : ℚ)
    (snowFeb snowApr : ℕ → ℚ) (i0 i1 i2 : ℚ) (innov : ℕ → ℚ) (nG : ℕ)
    (redoG : Bool) (cachedG : List SynthRow) (phist : PowHist) (a1 ma12 : ℝ)
    (histResid innovR : ℕ → ℝ) (nP : ℕ) (redoP : Bool) (cachedP : List PowSynthRow) :
    (synthetic_generation hist curveFitApr olsFeb olsApr stdOf ar1 ar3 snowFeb snowApr
        i0 i1 i2 innov nG redoG cachedG).2.rows = hist.rows ∧
    (synthetic_power phist a1 ma12 histResid innovR nP redoP cachedP).2.rows =
      phist.rows := by
  constructor
  · cases redoG
    · rfl
    · rfl
  · cases redoP
    · rfl
    · rfl
